import Mathlib

/-!
Verification development for the order hooks module (`src/hooks/useOrders.ts`).

The module exposes three operations against a remote relational store:
a list-orders query (nested select with descending order on `created_at`),
an update-order-status mutation (`update … eq('id', id) … select().single()`),
and a create-order mutation (insert the order row, then insert the item rows).
Each mutation is wrapped in a caching layer: on success it invalidates the
cached list under the key `orders` and emits a success toast; on failure it
emits an error toast interpolating the error message.

The embedding below is a shallow model of that code: the remote store is a
record of row lists, timestamps are natural numbers, and remote failures are
injected as explicit `Option Err` outcomes of the store calls.
-/

/-- An error object surfaced by the remote store (message text plus a code,
as PostgREST errors carry). The code never inspects these fields except to
interpolate `message` into a toast. -/
structure Err where
  message : String
  code : String
  deriving Repr, DecidableEq

/-- The five order statuses: `'new' | 'preparing' | 'ready' | 'served' | 'cancelled'`. -/
inductive Status where
  | new
  | preparing
  | ready
  | served
  | cancelled
  deriving Repr, DecidableEq

/-- `'dine-in' | 'takeaway'`. -/
inductive OrderType where
  | dineIn
  | takeaway
  deriving Repr, DecidableEq

/-- Free-form key-value option data (`Record<string, any>`), modelled as an
association list of string keys to string values; `{}` is `[]`. -/
def OptionMap : Type := List (String × String)

instance : DecidableEq OptionMap := by
  unfold OptionMap
  infer_instance

instance : Repr OptionMap := by
  unfold OptionMap
  infer_instance

/-- A row of the `orders` table. -/
structure OrderRow where
  id : String
  order_number : String
  customer_name : String
  customer_email : String
  customer_phone : Option String
  order_type : OrderType
  status : Status
  total_amount : Int
  notes : Option String
  created_at : Nat
  updated_at : Nat
  deriving Repr, DecidableEq

/-- A row of the `order_items` table. -/
structure OrderItemRow where
  id : String
  order_id : String
  menu_item_id : String
  quantity : Nat
  price : Int
  selected_options : OptionMap
  selected_add_ons : OptionMap
  deriving Repr, DecidableEq

/-- A row of the `menu_items` table (only the two columns the select touches). -/
structure MenuItemRow where
  id : String
  name : String
  description : String
  deriving Repr, DecidableEq

/-- The remote relational store: the three tables the module touches. -/
structure Store where
  orders : List OrderRow
  order_items : List OrderItemRow
  menu_items : List MenuItemRow
  deriving Repr, DecidableEq

/-- The nested `menu_items (name, description)` projection. -/
structure MenuInfo where
  name : String
  description : String
  deriving Repr, DecidableEq

/-- An order item as returned by the list query: its own columns plus the
nested menu-item display fields (absent when the referenced menu item does
not exist). -/
structure ItemView where
  id : String
  order_id : String
  menu_item_id : String
  quantity : Nat
  price : Int
  selected_options : OptionMap
  selected_add_ons : OptionMap
  menu_items : Option MenuInfo
  deriving Repr, DecidableEq

/-- An order as returned by the list query: its own columns plus the nested
`order_items ( … )` collection. -/
structure OrderView where
  id : String
  order_number : String
  customer_name : String
  customer_email : String
  customer_phone : Option String
  order_type : OrderType
  status : Status
  total_amount : Int
  notes : Option String
  created_at : Nat
  updated_at : Nat
  order_items : List ItemView
  deriving Repr, DecidableEq

/-- The nested projection on one item row: join-fetch the referenced
`menu_items` row's `name` and `description`. -/
def itemView (s : Store) (it : OrderItemRow) : ItemView :=
  { id := it.id
    order_id := it.order_id
    menu_item_id := it.menu_item_id
    quantity := it.quantity
    price := it.price
    selected_options := it.selected_options
    selected_add_ons := it.selected_add_ons
    menu_items := (s.menu_items.find? (fun m => m.id == it.menu_item_id)).map
      (fun m => { name := m.name, description := m.description }) }

/-- The nested projection on one order row: its columns plus all
`order_items` rows whose `order_id` matches. -/
def orderView (s : Store) (o : OrderRow) : OrderView :=
  { id := o.id
    order_number := o.order_number
    customer_name := o.customer_name
    customer_email := o.customer_email
    customer_phone := o.customer_phone
    order_type := o.order_type
    status := o.status
    total_amount := o.total_amount
    notes := o.notes
    created_at := o.created_at
    updated_at := o.updated_at
    order_items := (s.order_items.filter (fun it => it.order_id == o.id)).map (itemView s) }

/-- The comparison used by `.order('created_at', { ascending: false })`:
later creation times come first. -/
def createdDesc (a b : OrderRow) : Bool :=
  decide (b.created_at ≤ a.created_at)

/-- The body of the `useOrders` query on a store whose fetch succeeds:
select every order with its nested items and menu-item fields, ordered by
`created_at` descending. -/
def listOrders (s : Store) : List OrderView :=
  (s.orders.mergeSort createdDesc).map (orderView s)

/-- The full `queryFn` of `useOrders`: if the remote fetch fails
(`fetchErr = some e`) the error is thrown to the caching layer untouched;
otherwise the selected data is returned. -/
def listOrdersQuery (s : Store) (fetchErr : Option Err) : Except Err (List OrderView) :=
  match fetchErr with
  | some e => Except.error e
  | none => Except.ok (listOrders s)

/-- `{ ...o, status, updated_at: new Date().toISOString() }`: the update
applied to a matching row. -/
def applyUpdate (st : Status) (now : Nat) (o : OrderRow) : OrderRow :=
  { o with status := st, updated_at := now }

/-- The error `.single()` raises when the response is not exactly one row. -/
def singleRowErr : Err :=
  { message := "JSON object requested, multiple (or no) rows returned"
    code := "PGRST116" }

/-- The `mutationFn` of `useUpdateOrderStatus`:
`update({ status, updated_at }) .eq('id', id) .select() .single()`.
Every row whose `id` matches is updated in the store; the call returns the
updated row when exactly one row matched and the `.single()` error
otherwise. -/
def updateOrderStatus (s : Store) (id : String) (st : Status) (now : Nat) :
    Except Err OrderRow × Store :=
  let touched := (s.orders.filter (fun o => o.id == id)).map (applyUpdate st now)
  let s' : Store :=
    { s with orders := s.orders.map (fun o => if o.id == id then applyUpdate st now o else o) }
  match touched with
  | [row] => (Except.ok row, s')
  | _ => (Except.error singleRowErr, s')

/-- The order payload of `useCreateOrder`: every `Order` field except
`id`, `created_at`, `updated_at` and `order_items`. -/
structure OrderData where
  order_number : String
  customer_name : String
  customer_email : String
  customer_phone : Option String
  order_type : OrderType
  status : Status
  total_amount : Int
  notes : Option String
  deriving Repr, DecidableEq

/-- One element of the `items` array passed to `useCreateOrder`; the two
option mappings are optional in the input. -/
structure ItemInput where
  menu_item_id : String
  quantity : Nat
  price : Int
  selected_options : Option OptionMap
  selected_add_ons : Option OptionMap
  deriving Repr, DecidableEq

/-- The order row built by the store for the insert: the payload's columns
plus the freshly assigned `id` and timestamps. -/
def mkOrderRow (freshId : String) (now : Nat) (od : OrderData) : OrderRow :=
  { id := freshId
    order_number := od.order_number
    customer_name := od.customer_name
    customer_email := od.customer_email
    customer_phone := od.customer_phone
    order_type := od.order_type
    status := od.status
    total_amount := od.total_amount
    notes := od.notes
    created_at := now
    updated_at := now }

/-- The per-item mapping inside `useCreateOrder`:
`{ order_id: order.id, …, selected_options: item.selected_options || {},
selected_add_ons: item.selected_add_ons || {} }`. The row id is assigned by
the store. -/
def toItemRow (orderId : String) (rowId : String) (it : ItemInput) : OrderItemRow :=
  { id := rowId
    order_id := orderId
    menu_item_id := it.menu_item_id
    quantity := it.quantity
    price := it.price
    selected_options := it.selected_options.getD []
    selected_add_ons := it.selected_add_ons.getD [] }

/-- Row ids the store assigns to the inserted item rows. -/
def itemRowId (freshId : String) (i : Nat) : String :=
  freshId ++ "-item-" ++ toString i

/-- The `mutationFn` of `useCreateOrder`. The store's fresh order id and the
outcomes of the two insert calls are injected: `orderErr` is the failure of
the `orders` insert (checked first: `if (orderError) throw orderError`),
`itemsErr` the failure of the `order_items` insert. On an order-insert
failure nothing is written; on an item-insert failure the order row from the
first step stays in the store; on success the mutation returns the created
order row. -/
def createOrder (s : Store) (od : OrderData) (items : List ItemInput)
    (freshId : String) (now : Nat) (orderErr itemsErr : Option Err) :
    Except Err OrderRow × Store :=
  match orderErr with
  | some e => (Except.error e, s)
  | none =>
    let order := mkOrderRow freshId now od
    let s1 : Store := { s with orders := s.orders ++ [order] }
    let orderItems := items.enum.map
      (fun p => toItemRow order.id (itemRowId freshId p.1) p.2)
    match itemsErr with
    | some e => (Except.error e, s1)
    | none =>
      (Except.ok order, { s1 with order_items := s1.order_items ++ orderItems })

/-- A toast call: title, description and whether `variant: "destructive"`
was passed. -/
structure Toast where
  title : String
  description : String
  destructive : Bool
  deriving Repr, DecidableEq

/-- The client-side state around the store: the remote store itself, the log
of `invalidateQueries` calls (each recorded by its query key), and the
emitted toasts. -/
structure ClientState where
  store : Store
  invalidations : List (List String)
  toasts : List Toast
  deriving Repr, DecidableEq

/-- The success toast of `useUpdateOrderStatus`. -/
def updateSuccessToast : Toast :=
  { title := "Order status updated"
    description := "The order status has been updated successfully."
    destructive := false }

/-- The error toast of `useUpdateOrderStatus`. -/
def updateErrorToast (e : Err) : Toast :=
  { title := "Error"
    description := "Failed to update order status: " ++ e.message
    destructive := true }

/-- The success toast of `useCreateOrder`. -/
def createSuccessToast : Toast :=
  { title := "Order created"
    description := "Your order has been placed successfully."
    destructive := false }

/-- The error toast of `useCreateOrder`. -/
def createErrorToast (e : Err) : Toast :=
  { title := "Error"
    description := "Failed to create order: " ++ e.message
    destructive := true }

/-- The full `useUpdateOrderStatus` mutation: run the `mutationFn`, then on
success invalidate the query key `['orders']` and toast success, and on
error toast the failure without touching the cache. -/
def runUpdateOrderStatus (cs : ClientState) (id : String) (st : Status) (now : Nat) :
    ClientState :=
  let r := updateOrderStatus cs.store id st now
  match r.1 with
  | Except.ok _ =>
    { store := r.2
      invalidations := cs.invalidations ++ [["orders"]]
      toasts := cs.toasts ++ [updateSuccessToast] }
  | Except.error e =>
    { store := r.2
      invalidations := cs.invalidations
      toasts := cs.toasts ++ [updateErrorToast e] }

/-- The full `useCreateOrder` mutation: run the `mutationFn`, then on
success invalidate the query key `['orders']` and toast success, and on
error toast the failure without touching the cache. -/
def runCreateOrder (cs : ClientState) (od : OrderData) (items : List ItemInput)
    (freshId : String) (now : Nat) (orderErr itemsErr : Option Err) : ClientState :=
  let r := createOrder cs.store od items freshId now orderErr itemsErr
  match r.1 with
  | Except.ok _ =>
    { store := r.2
      invalidations := cs.invalidations ++ [["orders"]]
      toasts := cs.toasts ++ [createSuccessToast] }
  | Except.error e =>
    { store := r.2
      invalidations := cs.invalidations
      toasts := cs.toasts ++ [createErrorToast e] }

/-! ## Theorems -/

lemma createdDesc_trans (a b c : OrderRow) :
    createdDesc a b = true → createdDesc b c = true → createdDesc a c = true := by
  simp only [createdDesc, decide_eq_true_eq]
  omega

lemma createdDesc_total (a b : OrderRow) :
    (createdDesc a b || createdDesc b a) = true := by
  simp only [createdDesc, Bool.or_eq_true, decide_eq_true_eq]
  omega

lemma orderView_created_at (s : Store) (o : OrderRow) :
    (orderView s o).created_at = o.created_at := rfl

lemma orderView_id (s : Store) (o : OrderRow) :
    (orderView s o).id = o.id := rfl

/-- C1: the list-orders query returns one view per underlying order row
(the full set, each carrying exactly the item rows whose `order_id` matches,
projected with the nested menu-item fields), and for every store the output
is sorted by `created_at` descending. -/
theorem listOrders_complete_and_sorted_desc (s : Store) :
    (listOrders s).Perm (s.orders.map (orderView s)) ∧
    (listOrders s).Pairwise (fun a b => b.created_at ≤ a.created_at) ∧
    ∀ ov ∈ listOrders s,
      ov.order_items =
        (s.order_items.filter (fun it => it.order_id == ov.id)).map (itemView s) := by
  refine ⟨?_, ?_, ?_⟩
  · exact List.Perm.map _ (List.mergeSort_perm s.orders createdDesc)
  · have hs := List.sorted_mergeSort createdDesc_trans createdDesc_total s.orders
    rw [listOrders, List.pairwise_map]
    refine hs.imp ?_
    intro a b h
    simp only [createdDesc, decide_eq_true_eq] at h
    simpa [orderView_created_at] using h
  · intro ov hov
    rw [listOrders, List.mem_map] at hov
    obtain ⟨o, _, rfl⟩ := hov
    rfl

lemma applyUpdate_id (st : Status) (now : Nat) (o : OrderRow) :
    (applyUpdate st now o).id = o.id := rfl

lemma applyUpdate_status (st : Status) (now : Nat) (o : OrderRow) :
    (applyUpdate st now o).status = st := rfl

lemma applyUpdate_updated_at (st : Status) (now : Nat) (o : OrderRow) :
    (applyUpdate st now o).updated_at = now := rfl

lemma filter_map_update_match (l : List OrderRow) (id : String) (st : Status) (now : Nat) :
    (l.map (fun o => if o.id == id then applyUpdate st now o else o)).filter
        (fun o => o.id == id) =
      (l.filter (fun o => o.id == id)).map (applyUpdate st now) := by
  induction l with
  | nil => rfl
  | cons o t ih =>
    by_cases h : o.id = id
    · simp only [List.map_cons, List.filter_cons, h, beq_self_eq_true, if_true,
        applyUpdate_id, ih]
    · simp only [List.map_cons, List.filter_cons, beq_eq_false_iff_ne.mpr h,
        if_false, Bool.false_eq_true, ih]

lemma filter_map_update_other (l : List OrderRow) (id : String) (st : Status) (now : Nat) :
    (l.map (fun o => if o.id == id then applyUpdate st now o else o)).filter
        (fun o => !(o.id == id)) =
      l.filter (fun o => !(o.id == id)) := by
  induction l with
  | nil => rfl
  | cons o t ih =>
    by_cases h : o.id = id
    · simp [List.filter_cons, h, applyUpdate_id]
      simpa using ih
    · simp [List.filter_cons, h]
      simpa using ih

/-- C2: when exactly one stored row carries the given id, the update-status
mutation — for every one of the five status values — returns that row with
the new status and the current time as its update timestamp, the resulting
store holds exactly one row with that id (the updated one), every row with a
different id is untouched, and no item row changes. -/
theorem updateOrderStatus_single_row (s : Store) (id : String) (st : Status)
    (now : Nat) (o₀ : OrderRow)
    (h : s.orders.filter (fun o => o.id == id) = [o₀]) :
    (updateOrderStatus s id st now).1 = Except.ok (applyUpdate st now o₀) ∧
    (applyUpdate st now o₀).status = st ∧
    (applyUpdate st now o₀).updated_at = now ∧
    (applyUpdate st now o₀).id = o₀.id ∧
    (updateOrderStatus s id st now).2.orders.filter (fun o => o.id == id) =
      [applyUpdate st now o₀] ∧
    (updateOrderStatus s id st now).2.orders.filter (fun o => !(o.id == id)) =
      s.orders.filter (fun o => !(o.id == id)) ∧
    (updateOrderStatus s id st now).2.order_items = s.order_items := by
  have htouched :
      (s.orders.filter (fun o => o.id == id)).map (applyUpdate st now) =
        [applyUpdate st now o₀] := by
    rw [h]; rfl
  refine ⟨?_, rfl, rfl, rfl, ?_, ?_, ?_⟩
  · simp only [updateOrderStatus, htouched]
  · simp only [updateOrderStatus, htouched]
    rw [filter_map_update_match, h]
    rfl
  · simp only [updateOrderStatus, htouched]
    exact filter_map_update_other s.orders id st now
  · simp only [updateOrderStatus, htouched]

/-- A store with a single stored order (id `o1`, status `new`), used to
instantiate the theorems on a concrete input. -/
def sampleOrder : OrderRow :=
  { id := "o1"
    order_number := "1001"
    customer_name := "Ada"
    customer_email := "ada@example.com"
    customer_phone := none
    order_type := OrderType.dineIn
    status := Status.new
    total_amount := 1200
    notes := none
    created_at := 10
    updated_at := 10 }

/-- A store holding just `sampleOrder`. -/
def sampleStore : Store :=
  { orders := [sampleOrder], order_items := [], menu_items := [] }

theorem updateOrderStatus_single_row_spot :
    (updateOrderStatus sampleStore "o1" Status.preparing 42).1 =
      Except.ok (applyUpdate Status.preparing 42 sampleOrder) ∧
    (applyUpdate Status.preparing 42 sampleOrder).status = Status.preparing ∧
    (applyUpdate Status.preparing 42 sampleOrder).updated_at = 42 ∧
    (applyUpdate Status.preparing 42 sampleOrder).id = sampleOrder.id ∧
    (updateOrderStatus sampleStore "o1" Status.preparing 42).2.orders.filter
        (fun o => o.id == "o1") = [applyUpdate Status.preparing 42 sampleOrder] ∧
    (updateOrderStatus sampleStore "o1" Status.preparing 42).2.orders.filter
        (fun o => !(o.id == "o1")) = sampleStore.orders.filter (fun o => !(o.id == "o1")) ∧
    (updateOrderStatus sampleStore "o1" Status.preparing 42).2.order_items =
      sampleStore.order_items :=
  updateOrderStatus_single_row sampleStore "o1" Status.preparing 42 sampleOrder (by decide)

/-- C3: a successful create-order run returns the created order row (an
`OrderRow`, which carries no item collection), and afterwards the rows
referencing the fresh order id are exactly one per input item, in input
order; each inserted row references the fresh order id and gets `{}` (the
empty mapping) for any option mapping omitted from its input. -/
theorem createOrder_success_inserts_items (s : Store) (od : OrderData)
    (items : List ItemInput) (freshId : String) (now : Nat)
    (hfresh : ∀ it ∈ s.order_items, it.order_id ≠ freshId) :
    (createOrder s od items freshId now none none).1 =
      Except.ok (mkOrderRow freshId now od) ∧
    (createOrder s od items freshId now none none).2.order_items.filter
        (fun it => it.order_id == freshId) =
      items.enum.map (fun p => toItemRow freshId (itemRowId freshId p.1) p.2) ∧
    ((createOrder s od items freshId now none none).2.order_items.filter
        (fun it => it.order_id == freshId)).length = items.length ∧
    (∀ it : ItemInput, ∀ rid : String,
      (toItemRow freshId rid it).order_id = freshId ∧
      (it.selected_options = none → (toItemRow freshId rid it).selected_options = []) ∧
      (it.selected_add_ons = none → (toItemRow freshId rid it).selected_add_ons = [])) := by
  have hfilter :
      (createOrder s od items freshId now none none).2.order_items.filter
          (fun it => it.order_id == freshId) =
        items.enum.map (fun p => toItemRow freshId (itemRowId freshId p.1) p.2) := by
    show (s.order_items ++
        items.enum.map (fun p => toItemRow freshId (itemRowId freshId p.1) p.2)).filter
          (fun it => it.order_id == freshId) = _
    rw [List.filter_append]
    have h1 : s.order_items.filter (fun it => it.order_id == freshId) = [] := by
      rw [List.filter_eq_nil_iff]
      intro a ha
      simpa using hfresh a ha
    have h2 :
        (items.enum.map (fun p => toItemRow freshId (itemRowId freshId p.1) p.2)).filter
            (fun it => it.order_id == freshId) =
          items.enum.map (fun p => toItemRow freshId (itemRowId freshId p.1) p.2) := by
      rw [List.filter_eq_self]
      intro a ha
      rw [List.mem_map] at ha
      obtain ⟨p, _, rfl⟩ := ha
      simp [toItemRow]
    rw [h1, h2, List.nil_append]
  refine ⟨rfl, hfilter, ?_, ?_⟩
  · rw [hfilter, List.length_map, List.enum_length]
  · intro it rid
    refine ⟨rfl, ?_, ?_⟩
    · intro ho
      simp [toItemRow, ho]
    · intro ho
      simp [toItemRow, ho]

/-- The order payload used to instantiate the create-order theorems. -/
def sampleOrderData : OrderData :=
  { order_number := "1002"
    customer_name := "Grace"
    customer_email := "grace@example.com"
    customer_phone := some "555-0100"
    order_type := OrderType.takeaway
    status := Status.new
    total_amount := 800
    notes := some "no onions" }

/-- An item input omitting both option mappings. -/
def sampleItemInput : ItemInput :=
  { menu_item_id := "m1"
    quantity := 2
    price := 400
    selected_options := none
    selected_add_ons := none }

theorem createOrder_success_inserts_items_spot :
    (createOrder sampleStore sampleOrderData [sampleItemInput] "o2" 50 none none).1 =
      Except.ok (mkOrderRow "o2" 50 sampleOrderData) ∧
    (createOrder sampleStore sampleOrderData [sampleItemInput] "o2" 50 none none).2.order_items.filter
        (fun it => it.order_id == "o2") =
      [sampleItemInput].enum.map (fun p => toItemRow "o2" (itemRowId "o2" p.1) p.2) ∧
    ((createOrder sampleStore sampleOrderData [sampleItemInput] "o2" 50 none none).2.order_items.filter
        (fun it => it.order_id == "o2")).length = [sampleItemInput].length ∧
    (∀ it : ItemInput, ∀ rid : String,
      (toItemRow "o2" rid it).order_id = "o2" ∧
      (it.selected_options = none → (toItemRow "o2" rid it).selected_options = []) ∧
      (it.selected_add_ons = none → (toItemRow "o2" rid it).selected_add_ons = [])) :=
  createOrder_success_inserts_items sampleStore sampleOrderData [sampleItemInput] "o2" 50
    (by intro it h; simp [sampleStore] at h)

/-- C4: when the order-row insert fails, create-order surfaces that error
and leaves the store untouched — in particular no item row is written —
whatever the outcome of the (never reached) item insert would have been. -/
theorem createOrder_order_insert_failure (s : Store) (od : OrderData)
    (items : List ItemInput) (freshId : String) (now : Nat) (e : Err)
    (itemsErr : Option Err) :
    (createOrder s od items freshId now (some e) itemsErr).1 = Except.error e ∧
    (createOrder s od items freshId now (some e) itemsErr).2.orders = s.orders ∧
    (createOrder s od items freshId now (some e) itemsErr).2.order_items =
      s.order_items :=
  ⟨rfl, rfl, rfl⟩

/-- C5: when the item insert fails after the order insert succeeded, the
surfaced error is the item-insert error itself (verbatim — no distinct error
kind marks that the order row already exists), the order row from the first
step stays in the store, and no item row is written. -/
theorem createOrder_item_insert_failure (s : Store) (od : OrderData)
    (items : List ItemInput) (freshId : String) (now : Nat) (e : Err) :
    (createOrder s od items freshId now none (some e)).1 = Except.error e ∧
    mkOrderRow freshId now od ∈
      (createOrder s od items freshId now none (some e)).2.orders ∧
    (createOrder s od items freshId now none (some e)).2.order_items =
      s.order_items := by
  refine ⟨rfl, ?_, rfl⟩
  show mkOrderRow freshId now od ∈ s.orders ++ [mkOrderRow freshId now od]
  exact List.mem_append_right s.orders (List.mem_singleton_self _)

/-- C9: create-order with an empty items array creates the order row,
inserts zero item rows, and succeeds. -/
theorem createOrder_empty_items (s : Store) (od : OrderData) (freshId : String)
    (now : Nat) :
    (createOrder s od [] freshId now none none).1 =
      Except.ok (mkOrderRow freshId now od) ∧
    (createOrder s od [] freshId now none none).2.order_items = s.order_items ∧
    (createOrder s od [] freshId now none none).2.orders =
      s.orders ++ [mkOrderRow freshId now od] := by
  refine ⟨rfl, ?_, rfl⟩
  show s.order_items ++ ([] : List ItemInput).enum.map
      (fun p => toItemRow freshId (itemRowId freshId p.1) p.2) = s.order_items
  simp

/-- C8: a failing list-orders fetch propagates the remote store's error
object verbatim to the caching layer. -/
theorem listOrdersQuery_propagates_error (s : Store) (e : Err) :
    listOrdersQuery s (some e) = Except.error e := rfl

/-- C6: whenever the update-status or the create-order `mutationFn` fails,
the run leaves the invalidation log untouched (the cached `orders` entry is
never invalidated) and appends exactly one error toast whose description
interpolates the failing error's message. -/
theorem mutation_failure_leaves_cache (cs : ClientState) (id : String)
    (st : Status) (now : Nat) (od : OrderData) (items : List ItemInput)
    (freshId : String) (now2 : Nat) (orderErr itemsErr : Option Err) (e e' : Err)
    (hu : (updateOrderStatus cs.store id st now).1 = Except.error e)
    (hc : (createOrder cs.store od items freshId now2 orderErr itemsErr).1 =
      Except.error e') :
    (runUpdateOrderStatus cs id st now).invalidations = cs.invalidations ∧
    (runUpdateOrderStatus cs id st now).toasts = cs.toasts ++ [updateErrorToast e] ∧
    (updateErrorToast e).description = "Failed to update order status: " ++ e.message ∧
    (runCreateOrder cs od items freshId now2 orderErr itemsErr).invalidations =
      cs.invalidations ∧
    (runCreateOrder cs od items freshId now2 orderErr itemsErr).toasts =
      cs.toasts ++ [createErrorToast e'] ∧
    (createErrorToast e').description = "Failed to create order: " ++ e'.message := by
  refine ⟨?_, ?_, rfl, ?_, ?_, rfl⟩ <;>
    simp only [runUpdateOrderStatus, runCreateOrder, hu, hc]

/-- C7: whenever the update-status `mutationFn` succeeds, and independently
whenever the create-order `mutationFn` succeeds, the run appends an
invalidation of the query key `['orders']` to the invalidation log and
appends the corresponding success toast. -/
theorem mutation_success_invalidates (cs : ClientState) (id : String)
    (st : Status) (now : Nat) (od : OrderData) (items : List ItemInput)
    (freshId : String) (now2 : Nat) (orderErr itemsErr : Option Err) :
    (∀ row : OrderRow, (updateOrderStatus cs.store id st now).1 = Except.ok row →
      (runUpdateOrderStatus cs id st now).invalidations =
        cs.invalidations ++ [["orders"]] ∧
      (runUpdateOrderStatus cs id st now).toasts =
        cs.toasts ++ [updateSuccessToast]) ∧
    (∀ row : OrderRow,
      (createOrder cs.store od items freshId now2 orderErr itemsErr).1 =
        Except.ok row →
      (runCreateOrder cs od items freshId now2 orderErr itemsErr).invalidations =
        cs.invalidations ++ [["orders"]] ∧
      (runCreateOrder cs od items freshId now2 orderErr itemsErr).toasts =
        cs.toasts ++ [createSuccessToast]) := by
  constructor <;> intro row h <;>
    simp only [runUpdateOrderStatus, runCreateOrder, h, and_self]

/-- C10: when no stored row carries the given id, the update-status
mutation fails with the `.single()` error, the store is unchanged (no row's
state changes), and the run does not invalidate the cached list. -/
theorem updateOrderStatus_no_match (cs : ClientState) (id : String)
    (st : Status) (now : Nat)
    (h : ∀ o ∈ cs.store.orders, o.id ≠ id) :
    (updateOrderStatus cs.store id st now).1 = Except.error singleRowErr ∧
    (updateOrderStatus cs.store id st now).2 = cs.store ∧
    (runUpdateOrderStatus cs id st now).invalidations = cs.invalidations ∧
    (runUpdateOrderStatus cs id st now).store = cs.store := by
  have hfil : cs.store.orders.filter (fun o => o.id == id) = [] := by
    rw [List.filter_eq_nil_iff]
    intro a ha
    simpa using h a ha
  have hmap :
      cs.store.orders.map
          (fun o => if o.id == id then applyUpdate st now o else o) =
        cs.store.orders := by
    refine (List.map_congr_left ?_).trans (List.map_id cs.store.orders)
    intro o ho
    simp [beq_eq_false_iff_ne.mpr (h o ho)]
  have h1 : (updateOrderStatus cs.store id st now).1 = Except.error singleRowErr := by
    simp only [updateOrderStatus, hfil, List.map_nil]
  have h2 : (updateOrderStatus cs.store id st now).2 = cs.store := by
    simp only [updateOrderStatus, hfil, List.map_nil, hmap]
  refine ⟨h1, h2, ?_, ?_⟩ <;>
    simp only [runUpdateOrderStatus, h1, h2]

/-- A remote-store error used to instantiate the failure theorems. -/
def sampleErr : Err :=
  { message := "connection reset", code := "08006" }

/-- A second remote-store error for the item-insert step. -/
def sampleItemsErr : Err :=
  { message := "foreign key violation", code := "23503" }

/-- The client state wrapping `sampleStore`, with empty logs. -/
def sampleClient : ClientState :=
  { store := sampleStore, invalidations := [], toasts := [] }

theorem mutation_failure_leaves_cache_spot :
    (runUpdateOrderStatus sampleClient "zzz" Status.ready 7).invalidations =
      sampleClient.invalidations ∧
    (runUpdateOrderStatus sampleClient "zzz" Status.ready 7).toasts =
      sampleClient.toasts ++ [updateErrorToast singleRowErr] ∧
    (updateErrorToast singleRowErr).description =
      "Failed to update order status: " ++ singleRowErr.message ∧
    (runCreateOrder sampleClient sampleOrderData [] "o3" 8 (some sampleErr)
        none).invalidations = sampleClient.invalidations ∧
    (runCreateOrder sampleClient sampleOrderData [] "o3" 8 (some sampleErr)
        none).toasts = sampleClient.toasts ++ [createErrorToast sampleErr] ∧
    (createErrorToast sampleErr).description =
      "Failed to create order: " ++ sampleErr.message :=
  mutation_failure_leaves_cache sampleClient "zzz" Status.ready 7 sampleOrderData []
    "o3" 8 (some sampleErr) none singleRowErr sampleErr rfl rfl

theorem mutation_success_invalidates_spot :
    ((runUpdateOrderStatus sampleClient "o1" Status.preparing 9).invalidations =
        sampleClient.invalidations ++ [["orders"]] ∧
      (runUpdateOrderStatus sampleClient "o1" Status.preparing 9).toasts =
        sampleClient.toasts ++ [updateSuccessToast]) ∧
    ((runCreateOrder sampleClient sampleOrderData [sampleItemInput] "o4" 11 none
        none).invalidations = sampleClient.invalidations ++ [["orders"]] ∧
      (runCreateOrder sampleClient sampleOrderData [sampleItemInput] "o4" 11 none
        none).toasts = sampleClient.toasts ++ [createSuccessToast]) :=
  ⟨(mutation_success_invalidates sampleClient "o1" Status.preparing 9 sampleOrderData
      [sampleItemInput] "o4" 11 none none).1
      (applyUpdate Status.preparing 9 sampleOrder) rfl,
   (mutation_success_invalidates sampleClient "o1" Status.preparing 9 sampleOrderData
      [sampleItemInput] "o4" 11 none none).2
      (mkOrderRow "o4" 11 sampleOrderData) rfl⟩

theorem updateOrderStatus_no_match_spot :
    (updateOrderStatus sampleClient.store "zzz" Status.served 13).1 =
      Except.error singleRowErr ∧
    (updateOrderStatus sampleClient.store "zzz" Status.served 13).2 =
      sampleClient.store ∧
    (runUpdateOrderStatus sampleClient "zzz" Status.served 13).invalidations =
      sampleClient.invalidations ∧
    (runUpdateOrderStatus sampleClient "zzz" Status.served 13).store =
      sampleClient.store :=
  updateOrderStatus_no_match sampleClient "zzz" Status.served 13 (by decide)
